import Mathlib

/-!
Verification of the Warp2 charger adapter (src/charger/warp2.go).

The adapter talks to the device over an MQTT bus.  We embed each method as a
pure function: the outcome of every bus read or write that the method performs
is passed in as an explicit `Except` argument (the device side of the
interaction), and the method returns its Go result together with the updated
adapter state and the list of bus commands it issued.  Machine `int64` values
are modelled as unbounded `Int` (no arithmetic in the modelled code wraps);
Go `float64` amps are modelled as exact rationals, with the Go `int64(...)`
conversion modelled as truncation toward zero.
-/

set_option linter.unusedVariables false

namespace Warp2Spec

/-- Transport, timeout and decode errors are carried as strings. -/
abbrev Err := String

/-- Commands the adapter issues on the MQTT bus (writes, and the fresh
energy-manager state read performed by `phases1p3p`). -/
inductive BusCmd where
  | readEmState : BusCmd
  | writeMaxCurrent : Int → BusCmd
  | writePhases : Int → BusCmd
deriving DecidableEq

/-- Adapter state of `Warp2` (src/charger/warp2.go lines 18-32): the cached
feature list (`nil` in Go is `none` here) and the cached last-applied current
in milliamps. The bus getter/setter closures are modelled as explicit
arguments of each operation. -/
structure Warp2 where
  features : Option (List String)
  current : Int
deriving DecidableEq

/-- Modelled from the spec: `warp.EvseExternalCurrent` lives in the warp
package outside src/; per spec section 6 the payload is a JSON object with a
current field in milliamps. -/
structure EvseExternalCurrent where
  Current : Int
deriving DecidableEq

/-- Modelled from the spec: `warp.EvseState` lives in the warp package outside
src/; per spec section 6 the payload carries a numeric IEC 61851 state code. -/
structure EvseState where
  Iec61851State : Int
deriving DecidableEq

/-- Modelled from the spec: `warp.EmState` lives in the warp package outside
src/; per spec section 3 the control-mode field is an enum code (0 available,
1 actively controlling, other codes error on override), modelled as `Nat`. -/
structure EmState where
  ExternalControl : Nat
deriving DecidableEq

/-- Modelled from the spec: the `String()` method of the control-mode enum
lives in the warp package outside src/; the spec names mode 0 available and
mode 1 actively controlling. -/
def externalControlString (n : Nat) : String :=
  if n = 0 then "available"
  else if n = 1 then "actively controlling"
  else ("unknown mode ") ++ toString n

/-- Modelled from the spec: `api.ChargeStatus` lives in the api package
outside src/; the values are Not-connected (A), Connected (B), Charging (C)
and the zero value `StatusNone`. -/
inductive ChargeStatus where
  | statusNone : ChargeStatus
  | statusA : ChargeStatus
  | statusB : ChargeStatus
  | statusC : ChargeStatus
deriving DecidableEq

/-- Initial adapter state built by `NewWarp2` (warp2.go lines 98-102):
no cached features, cached current 6000 mA. -/
def NewWarp2 : Warp2 :=
  { features := none, current := 6000 }

/-- Go conversion `int64(x)` applied to an exact rational: truncation toward
zero (`Int.div` truncates toward zero, and a rational's denominator is
positive). -/
def int64OfRat (q : ℚ) : Int :=
  Int.tdiv q.num (q.den : Int)

/-- `MaxCurrentMillis` (warp2.go lines 238-245): convert amps to milliamps,
issue the write, and update the cached current only when the write succeeds. -/
def MaxCurrentMillis (wb : Warp2) (current : ℚ) (write : Except Err Unit) :
    Except Err Unit × Warp2 × List BusCmd :=
  let curr := int64OfRat (current * 1000)
  match write with
  | Except.ok _ => (Except.ok (), { wb with current := curr }, [BusCmd.writeMaxCurrent curr])
  | Except.error e => (Except.error e, wb, [BusCmd.writeMaxCurrent curr])

/-- `MaxCurrent` (warp2.go lines 231-233) delegates to `MaxCurrentMillis`. -/
def MaxCurrent (wb : Warp2) (current : Int) (write : Except Err Unit) :
    Except Err Unit × Warp2 × List BusCmd :=
  MaxCurrentMillis wb (current : ℚ) write

/-- `Enable` (warp2.go lines 182-188): write the cached current when enabling,
zero when disabling; the adapter state is not modified. -/
def Enable (wb : Warp2) (enable : Bool) (write : Except Err Unit) :
    Except Err Unit × List BusCmd :=
  let current : Int := if enable then wb.current else 0
  (write, [BusCmd.writeMaxCurrent current])

/-- `Enabled` (warp2.go lines 191-200): read the applied current from the
device; the zero-value payload is used when the read fails, and the error is
returned alongside the comparison result. -/
def Enabled (wb : Warp2) (read : Except Err EvseExternalCurrent) : Bool × Option Err :=
  let res : EvseExternalCurrent :=
    match read with
    | Except.ok r => r
    | Except.error _ => { Current := 0 }
  let err : Option Err :=
    match read with
    | Except.ok _ => none
    | Except.error e => some e
  (decide (6000 ≤ res.Current), err)

/-- `Status` (warp2.go lines 203-228): map the IEC 61851 state code, returning
a descriptive error on any unrecognized code. -/
def Status (wb : Warp2) (read : Except Err EvseState) : ChargeStatus × Option Err :=
  match read with
  | Except.error e => (ChargeStatus.statusNone, some e)
  | Except.ok status =>
    if status.Iec61851State = 0 then (ChargeStatus.statusA, none)
    else if status.Iec61851State = 1 then (ChargeStatus.statusB, none)
    else if status.Iec61851State = 2 then (ChargeStatus.statusC, none)
    else (ChargeStatus.statusNone,
      some (("invalid status: ") ++ toString status.Iec61851State))

/-- `meterValues` (warp2.go lines 271-287): propagate the read error, then
reject any decoded sequence of length at most 5. -/
def meterValues (read : Except Err (List ℚ)) : Except Err (List ℚ) :=
  match read with
  | Except.error e => Except.error e
  | Except.ok res =>
    if res.length ≤ 5 then Except.error ("invalid length") else Except.ok res

/-- `currents` (warp2.go lines 290-297): elements 3, 4, 5 of the guarded
sequence (in Go `res[3], res[4], res[5]`, in bounds because the guard ensures
length at least 6). -/
def currents (read : Except Err (List ℚ)) : (ℚ × ℚ × ℚ) × Option Err :=
  match meterValues read with
  | Except.error e => ((0, 0, 0), some e)
  | Except.ok res => ((res.getD 3 0, res.getD 4 0, res.getD 5 0), none)

/-- `voltages` (warp2.go lines 300-307): elements 0, 1, 2 of the guarded
sequence. -/
def voltages (read : Except Err (List ℚ)) : (ℚ × ℚ × ℚ) × Option Err :=
  match meterValues read with
  | Except.error e => ((0, 0, 0), some e)
  | Except.ok res => ((res.getD 0 0, res.getD 1 0, res.getD 2 0), none)

/-- `hasFeature` (warp2.go lines 163-179).  `probe` is the combined outcome of
creating the bounded getter, fetching the capability topic and parsing it
(any failure on that path leaves `wb.features` nil and returns false).  The
third component records whether a network fetch of the topic was performed
on this call (it is performed exactly when no feature list is cached). -/
def hasFeature (wb : Warp2) (probe : Except Err (List String)) (feature : String) :
    Bool × Warp2 × Bool :=
  match wb.features with
  | some fs => (fs.contains feature, wb, false)
  | none =>
    match probe with
    | Except.ok fs => (fs.contains feature, { wb with features := some fs }, true)
    | Except.error _ => (false, wb, true)

/-- A sequence of `hasFeature` calls with the given per-call probe outcomes;
returns the final adapter state and the number of calls that performed a
network fetch. -/
def runHasFeature : Warp2 → List (Except Err (List String)) → String → Warp2 × Nat
  | wb, [], _ => (wb, 0)
  | wb, p :: rest, feature =>
    let r := hasFeature wb p feature
    let s := runHasFeature r.2.1 rest feature
    (s.1, (if r.2.2 then 1 else 0) + s.2)

/-- `phases1p3p` (warp2.go lines 331-342): always performs a fresh
energy-manager state read first; any nonzero control mode is rejected with an
error naming the mode, and only mode 0 lets the phase write go out. -/
def phases1p3p (wb : Warp2) (emRead : Except Err EmState) (write : Except Err Unit)
    (phases : Int) : Except Err Unit × List BusCmd :=
  match emRead with
  | Except.error e => (Except.error e, [BusCmd.readEmState])
  | Except.ok res =>
    if res.ExternalControl > 0 then
      (Except.error (("external control not available: ")
        ++ externalControlString res.ExternalControl), [BusCmd.readEmState])
    else
      (write, [BusCmd.readEmState, BusCmd.writePhases phases])

/-- Modelled from the spec: the capability token for metering
(`warp.FeatureMeter` lives outside src/; only distinctness of tokens is
used). -/
def FeatureMeter : String := "meter"

/-- Modelled from the spec: the capability token for per-phase metering
(`warp.FeatureMeterPhases` lives outside src/). -/
def FeatureMeterPhases : String := "meter_phases"

/-- Modelled from the spec: the capability token for identification
(`warp.FeatureNfc` lives outside src/). -/
def FeatureNfc : String := "nfc"

/-- The optional capabilities attached by `decorateWarp2` in
`NewWarp2FromConfig` (warp2.go lines 62-86). -/
structure Decorated where
  hasCurrentPower : Bool
  hasTotalEnergy : Bool
  hasCurrents : Bool
  hasVoltages : Bool
  hasIdentity : Bool
  hasPhases : Bool
deriving DecidableEq

/-- Capability composition of `NewWarp2FromConfig` (warp2.go lines 62-87)
once `NewWarp2` has succeeded: three sequential `hasFeature` probes (each with
its own bus outcome), then the construction-time phase gate (energy-manager
topic configured, state read succeeded, control mode not 1).  The composition
itself is total: no discovery outcome makes construction fail. -/
def NewWarp2FromConfig (emConfigured : Bool)
    (probeMeter probePhases probeNfc : Except Err (List String))
    (emRead : Except Err EmState) : Decorated × Warp2 :=
  let r1 := hasFeature NewWarp2 probeMeter FeatureMeter
  let r2 := hasFeature r1.2.1 probePhases FeatureMeterPhases
  let r3 := hasFeature r2.2.1 probeNfc FeatureNfc
  let phases : Bool :=
    emConfigured && (match emRead with
      | Except.ok res => decide (res.ExternalControl ≠ 1)
      | Except.error _ => false)
  ({ hasCurrentPower := r1.1, hasTotalEnergy := r1.1,
     hasCurrents := r2.1, hasVoltages := r2.1,
     hasIdentity := r3.1, hasPhases := phases }, r3.2.1)

/-- Helper: once a feature list is cached, no sequence of further `hasFeature`
calls performs any fetch or changes the state. -/
theorem runHasFeature_cached (wb : Warp2) (gs : List String)
    (h : wb.features = some gs) (probes : List (Except Err (List String)))
    (feature : String) :
    runHasFeature wb probes feature = (wb, 0) := by
  induction probes with
  | nil => rfl
  | cons p rest ih =>
    simp only [runHasFeature, hasFeature, h]
    rw [ih]
    rfl

/-- C1: for every amps value, `MaxCurrentMillis` issues exactly one write of
the amps value converted to milliamps by truncation toward zero; on success
the cached last-applied current becomes that milliamp value and a subsequent
`Enable true` writes it; on failure the adapter state (hence the cache) is
unchanged. -/
theorem maxCurrentMillis_cache (wb : Warp2) (a : ℚ) (w : Except Err Unit) :
    (MaxCurrentMillis wb a w).2.2 = [BusCmd.writeMaxCurrent (int64OfRat (a * 1000))]
    ∧ (∀ u : Unit, w = Except.ok u →
        (MaxCurrentMillis wb a w).2.1.current = int64OfRat (a * 1000)
        ∧ ∀ w2 : Except Err Unit, (Enable (MaxCurrentMillis wb a w).2.1 true w2).2
            = [BusCmd.writeMaxCurrent (int64OfRat (a * 1000))])
    ∧ (∀ e : Err, w = Except.error e → (MaxCurrentMillis wb a w).2.1 = wb) := by
  cases w with
  | ok u =>
    refine ⟨rfl, fun _ _ => ⟨rfl, fun w2 => rfl⟩, ?_⟩
    intro e he
    cases he
  | error e =>
    refine ⟨rfl, ?_, fun e2 he => rfl⟩
    intro u hu
    cases hu

/-- Witness for C1: `MaxCurrentMillis` at 6.3 A with a successful write caches
6300 mA, and a subsequent `Enable true` writes 6300 mA. -/
theorem maxCurrentMillis_cache_witness :
    (MaxCurrentMillis NewWarp2 (63 / 10) (Except.ok ())).2.1.current = 6300
    ∧ (Enable (MaxCurrentMillis NewWarp2 (63 / 10) (Except.ok ())).2.1 true
        (Except.ok ())).2 = [BusCmd.writeMaxCurrent 6300] := by
  have h := (maxCurrentMillis_cache NewWarp2 (63 / 10) (Except.ok ())).2.1 () rfl
  have h1 : ((63 / 10 : ℚ) * 1000) = (6300 : ℚ) := by norm_num
  have hv : int64OfRat ((63 / 10 : ℚ) * 1000) = 6300 := by
    simp only [int64OfRat, h1]
    decide
  exact ⟨by rw [h.1, hv], by rw [h.2 (Except.ok ()), hv]⟩

/-- C2: `Status` maps code 0 to Not-connected (A), 1 to Connected (B) and 2 to
Charging (C) with no error, and any other code to the zero status together
with an error message naming that code. -/
theorem status_maps_codes (wb : Warp2) (st : EvseState) :
    (st.Iec61851State = 0 → Status wb (Except.ok st) = (ChargeStatus.statusA, none))
    ∧ (st.Iec61851State = 1 → Status wb (Except.ok st) = (ChargeStatus.statusB, none))
    ∧ (st.Iec61851State = 2 → Status wb (Except.ok st) = (ChargeStatus.statusC, none))
    ∧ (st.Iec61851State ≠ 0 → st.Iec61851State ≠ 1 → st.Iec61851State ≠ 2 →
        Status wb (Except.ok st)
          = (ChargeStatus.statusNone,
              some (("invalid status: ") ++ toString st.Iec61851State))) := by
  refine ⟨fun h => ?_, fun h => ?_, fun h => ?_, fun h0 h1 h2 => ?_⟩
  · simp [Status, h]
  · simp [Status, h]
  · simp [Status, h]
  · simp [Status, h0, h1, h2]

/-- Witness for C2 at codes 0 and 7. -/
theorem status_maps_codes_witness :
    Status NewWarp2 (Except.ok { Iec61851State := 0 }) = (ChargeStatus.statusA, none)
    ∧ Status NewWarp2 (Except.ok { Iec61851State := 7 })
        = (ChargeStatus.statusNone, some (("invalid status: ") ++ toString (7 : Int))) :=
  ⟨(status_maps_codes NewWarp2 { Iec61851State := 0 }).1 rfl,
   (status_maps_codes NewWarp2 { Iec61851State := 7 }).2.2.2
     (by decide) (by decide) (by decide)⟩

/-- C3: `Enabled` reports true exactly when the freshly read applied current
is at least 6000 mA, propagates the read error otherwise, and its result does
not depend on the adapter state (hence not on any prior Enable/MaxCurrent
calls). -/
theorem enabled_iff_threshold (wb : Warp2) (read : Except Err EvseExternalCurrent) :
    (∀ res : EvseExternalCurrent, read = Except.ok res →
        Enabled wb read = (decide (6000 ≤ res.Current), none))
    ∧ (∀ e : Err, read = Except.error e → (Enabled wb read).2 = some e)
    ∧ (∀ wb2 : Warp2, Enabled wb read = Enabled wb2 read) := by
  refine ⟨fun res h => ?_, fun e h => ?_, fun wb2 => rfl⟩ <;> subst h <;> rfl

/-- Witness for C3: a read of exactly 6000 mA yields true with no error, a
read of 5999 mA yields false, and a failed read propagates its error. -/
theorem enabled_iff_threshold_witness :
    Enabled NewWarp2 (Except.ok { Current := 6000 }) = (true, none)
    ∧ Enabled NewWarp2 (Except.ok { Current := 5999 }) = (false, none)
    ∧ (Enabled NewWarp2 (Except.error ("timeout"))).2 = some ("timeout") := by
  refine ⟨?_, ?_, ?_⟩
  · have h := (enabled_iff_threshold NewWarp2 (Except.ok { Current := 6000 })).1
      { Current := 6000 } rfl
    rw [h]; decide
  · have h := (enabled_iff_threshold NewWarp2 (Except.ok { Current := 5999 })).1
      { Current := 5999 } rfl
    rw [h]; decide
  · exact (enabled_iff_threshold NewWarp2 (Except.error ("timeout"))).2.1 ("timeout") rfl

/-- C4: a decoded extended-metering sequence of length at most 5 makes both
`currents` and `voltages` fail with the length error; a sequence of length
exactly 6 makes `voltages` return positions 0, 1, 2 and `currents` return
positions 3, 4, 5, in order, with no error. -/
theorem meter_length_and_positions (xs : List ℚ) :
    (xs.length ≤ 5 →
        currents (Except.ok xs) = ((0, 0, 0), some ("invalid length"))
        ∧ voltages (Except.ok xs) = ((0, 0, 0), some ("invalid length")))
    ∧ (∀ a b c d e f : ℚ, xs = [a, b, c, d, e, f] →
        voltages (Except.ok xs) = ((a, b, c), none)
        ∧ currents (Except.ok xs) = ((d, e, f), none)) := by
  constructor
  · intro h
    constructor <;> simp [currents, voltages, meterValues, h]
  · intro a b c d e f h
    subst h
    constructor <;> rfl

/-- Witness for C4: length 0 fails on both readers, and the six-element
sequence 1..6 splits into voltages (1, 2, 3) and currents (4, 5, 6). -/
theorem meter_length_and_positions_witness :
    currents (Except.ok ([] : List ℚ)) = ((0, 0, 0), some ("invalid length"))
    ∧ voltages (Except.ok [(1 : ℚ), 2, 3, 4, 5, 6]) = ((1, 2, 3), none)
    ∧ currents (Except.ok [(1 : ℚ), 2, 3, 4, 5, 6]) = ((4, 5, 6), none) :=
  ⟨((meter_length_and_positions []).1 (by decide)).1,
   ((meter_length_and_positions [1, 2, 3, 4, 5, 6]).2 1 2 3 4 5 6 rfl).1,
   ((meter_length_and_positions [1, 2, 3, 4, 5, 6]).2 1 2 3 4 5 6 rfl).2⟩

/-- C5: every `phases1p3p` call first performs a fresh energy-manager state
read; when that read reports any nonzero control mode the call fails with an
error naming the mode and issues no phase write, and when it reports mode 0
the call issues the phase write (returning the write's outcome). -/
theorem phases_guard (wb : Warp2) (emRead : Except Err EmState)
    (w : Except Err Unit) (n : Int) :
    (phases1p3p wb emRead w n).2.head? = some BusCmd.readEmState
    ∧ (∀ res : EmState, emRead = Except.ok res → res.ExternalControl ≠ 0 →
        (phases1p3p wb emRead w n).1
          = Except.error (("external control not available: ")
              ++ externalControlString res.ExternalControl)
        ∧ ∀ m : Int, BusCmd.writePhases m ∉ (phases1p3p wb emRead w n).2)
    ∧ (∀ res : EmState, emRead = Except.ok res → res.ExternalControl = 0 →
        (phases1p3p wb emRead w n).2 = [BusCmd.readEmState, BusCmd.writePhases n]
        ∧ (phases1p3p wb emRead w n).1 = w) := by
  refine ⟨?_, ?_, ?_⟩
  · cases emRead with
    | error e => rfl
    | ok res =>
      by_cases h : res.ExternalControl > 0 <;> simp [phases1p3p, h]
  · intro res h hne
    subst h
    have hpos : res.ExternalControl > 0 := Nat.pos_of_ne_zero hne
    constructor
    · simp [phases1p3p, hpos]
    · intro m
      simp [phases1p3p, hpos]
  · intro res h h0
    subst h
    simp [phases1p3p, h0]

/-- Witness for C5: control mode 2 blocks the write with the descriptive
error, control mode 0 lets the write of 3 phases through. -/
theorem phases_guard_witness :
    (phases1p3p NewWarp2 (Except.ok { ExternalControl := 2 }) (Except.ok ()) 3).1
      = Except.error (("external control not available: ") ++ externalControlString 2)
    ∧ (phases1p3p NewWarp2 (Except.ok { ExternalControl := 2 }) (Except.ok ()) 3).2
      = [BusCmd.readEmState]
    ∧ (phases1p3p NewWarp2 (Except.ok { ExternalControl := 0 }) (Except.ok ()) 3).2
      = [BusCmd.readEmState, BusCmd.writePhases 3] :=
  ⟨((phases_guard NewWarp2 (Except.ok { ExternalControl := 2 }) (Except.ok ()) 3).2.1
      { ExternalControl := 2 } rfl (by decide)).1,
   by decide,
   ((phases_guard NewWarp2 (Except.ok { ExternalControl := 0 }) (Except.ok ()) 3).2.2
      { ExternalControl := 0 } rfl rfl).1⟩

/-- C9 counterexample: the claim says a six-element payload is rejected, but
on the concrete six-element sequence 1..6 both readers succeed with no
error. -/
theorem meter_six_accepted_counterexample :
    ([(1 : ℚ), 2, 3, 4, 5, 6].length ≤ 6)
    ∧ meterValues (Except.ok [(1 : ℚ), 2, 3, 4, 5, 6])
        = Except.ok [(1 : ℚ), 2, 3, 4, 5, 6]
    ∧ (currents (Except.ok [(1 : ℚ), 2, 3, 4, 5, 6])).2 = none
    ∧ (voltages (Except.ok [(1 : ℚ), 2, 3, 4, 5, 6])).2 = none := by
  refine ⟨by decide, rfl, rfl, rfl⟩

/-- C9 amended: a payload with five or fewer elements is rejected as
malformed, so `currents` and `voltages` fail with the length error. -/
theorem meter_short_rejected (xs : List ℚ) (h : xs.length ≤ 5) :
    meterValues (Except.ok xs) = Except.error ("invalid length")
    ∧ (currents (Except.ok xs)).2 = some ("invalid length")
    ∧ (voltages (Except.ok xs)).2 = some ("invalid length") := by
  refine ⟨?_, ?_, ?_⟩ <;> simp [currents, voltages, meterValues, h]

/-- Witness for the amended C9 at the five-element sequence 1..5. -/
theorem meter_short_rejected_witness :
    meterValues (Except.ok [(1 : ℚ), 2, 3, 4, 5]) = Except.error ("invalid length")
    ∧ (currents (Except.ok [(1 : ℚ), 2, 3, 4, 5])).2 = some ("invalid length")
    ∧ (voltages (Except.ok [(1 : ℚ), 2, 3, 4, 5])).2 = some ("invalid length") :=
  meter_short_rejected [1, 2, 3, 4, 5] (by decide)

/-- C6 counterexample: on a fresh adapter whose first `hasFeature` probe fails
with a transport error, the feature list stays uncached, so the second call
performs a further network fetch — two fetches in two calls, refuting
"fetched at most once ... including when the first probe failed". -/
theorem hasFeature_refetch_counterexample :
    (hasFeature NewWarp2 (Except.error ("timeout")) ("meter")).2.2 = true
    ∧ (hasFeature NewWarp2 (Except.error ("timeout")) ("meter")).2.1.features = none
    ∧ (hasFeature (hasFeature NewWarp2 (Except.error ("timeout")) ("meter")).2.1
        (Except.error ("timeout")) ("meter")).2.2 = true
    ∧ (runHasFeature NewWarp2
        [Except.error ("timeout"), Except.error ("timeout")] ("meter")).2 = 2 := by
  exact ⟨rfl, rfl, rfl, rfl⟩

/-- C6 amended: the capability topic is fetched only while no feature list is
cached, and only a successful probe populates the cache; hence after the
first `hasFeature` call whose probe succeeded, every subsequent call consults
the cache only and performs no further network fetch (a call whose probe
failed leaves the cache empty, and the next call fetches again). -/
theorem hasFeature_cached_after_success (wb : Warp2) (fs : List String)
    (f0 feature : String) (probes : List (Except Err (List String)))
    (p : Except Err (List String)) (h : p = Except.ok fs) :
    ((hasFeature wb p f0).2.2 = true ↔ wb.features = none)
    ∧ (runHasFeature (hasFeature wb p f0).2.1 probes feature).2 = 0 := by
  subst h
  constructor
  · cases hf : wb.features with
    | none => simp [hasFeature, hf]
    | some gs => simp [hasFeature, hf]
  · cases hf : wb.features with
    | none =>
      have : (hasFeature wb (Except.ok fs) f0).2.1.features = some fs := by
        simp [hasFeature, hf]
      rw [runHasFeature_cached _ fs this probes feature]
    | some gs =>
      have h1 : (hasFeature wb (Except.ok fs) f0).2.1 = wb := by
        simp [hasFeature, hf]
      rw [h1, runHasFeature_cached wb gs hf probes feature]

/-- Witness for the amended C6: after one successful probe of the list
["meter"], two further calls with failing probes perform zero fetches. -/
theorem hasFeature_cached_after_success_witness :
    ((hasFeature NewWarp2 (Except.ok [("meter")]) ("nfc")).2.2 = true
      ↔ NewWarp2.features = none)
    ∧ (runHasFeature (hasFeature NewWarp2 (Except.ok [("meter")]) ("nfc")).2.1
        [Except.error ("timeout"), Except.error ("timeout")] ("meter")).2 = 0 :=
  hasFeature_cached_after_success NewWarp2 [("meter")] ("nfc") ("meter")
    [Except.error ("timeout"), Except.error ("timeout")] (Except.ok [("meter")]) rfl

/-- C7: when every feature-discovery probe fails, `hasFeature` reports false
for every capability (it raises no error by construction), and the composed
charger exposes none of the feature-gated capabilities — metering, per-phase
metering, identification — while construction still yields the base adapter
with its initial 6000 mA cached current. -/
theorem discovery_failure_degrades (emConfigured : Bool) (e1 e2 e3 : Err)
    (emRead : Except Err EmState) (feature : String) :
    (hasFeature NewWarp2 (Except.error e1) feature).1 = false
    ∧ (NewWarp2FromConfig emConfigured (Except.error e1) (Except.error e2)
        (Except.error e3) emRead).1.hasCurrentPower = false
    ∧ (NewWarp2FromConfig emConfigured (Except.error e1) (Except.error e2)
        (Except.error e3) emRead).1.hasTotalEnergy = false
    ∧ (NewWarp2FromConfig emConfigured (Except.error e1) (Except.error e2)
        (Except.error e3) emRead).1.hasCurrents = false
    ∧ (NewWarp2FromConfig emConfigured (Except.error e1) (Except.error e2)
        (Except.error e3) emRead).1.hasVoltages = false
    ∧ (NewWarp2FromConfig emConfigured (Except.error e1) (Except.error e2)
        (Except.error e3) emRead).1.hasIdentity = false
    ∧ (NewWarp2FromConfig emConfigured (Except.error e1) (Except.error e2)
        (Except.error e3) emRead).2.current = 6000 := by
  exact ⟨rfl, rfl, rfl, rfl, rfl, rfl, rfl⟩

/-- C8 counterexample: after `MaxCurrentMillis 8` succeeds and then
`MaxCurrentMillis 0` succeeds, the cache holds 0, and `Enable true` writes
0 mA — not the last successfully-applied nonzero current, which was
8000 mA. -/
theorem enable_zero_current_counterexample :
    (MaxCurrentMillis NewWarp2 8 (Except.ok ())).2.1.current = 8000
    ∧ (MaxCurrentMillis (MaxCurrentMillis NewWarp2 8 (Except.ok ())).2.1 0
        (Except.ok ())).2.1.current = 0
    ∧ (Enable (MaxCurrentMillis (MaxCurrentMillis NewWarp2 8 (Except.ok ())).2.1 0
        (Except.ok ())).2.1 true (Except.ok ())).2 = [BusCmd.writeMaxCurrent 0]
    ∧ (Enable (MaxCurrentMillis (MaxCurrentMillis NewWarp2 8 (Except.ok ())).2.1 0
        (Except.ok ())).2.1 true (Except.ok ())).2
      ≠ [BusCmd.writeMaxCurrent 8000] := by
  have hm8 : ((8 : ℚ) * 1000) = ((8000 : ℚ)) := by norm_num
  have hm0 : ((0 : ℚ) * 1000) = ((0 : ℚ)) := by norm_num
  have h8 : int64OfRat ((8 : ℚ) * 1000) = 8000 := by
    simp only [int64OfRat, hm8]
    decide
  have h0 : int64OfRat ((0 : ℚ) * 1000) = 0 := by
    simp only [int64OfRat, hm0]
    decide
  have e1 : (MaxCurrentMillis NewWarp2 8 (Except.ok ())).2.1.current = 8000 := by
    simp [MaxCurrentMillis, h8]
  have h00 : int64OfRat ((0 : ℚ)) = 0 := by decide
  have e2 : (MaxCurrentMillis (MaxCurrentMillis NewWarp2 8 (Except.ok ())).2.1 0
      (Except.ok ())).2.1.current = 0 := by
    simp [MaxCurrentMillis, h0, h00]
  have e3 : (Enable (MaxCurrentMillis (MaxCurrentMillis NewWarp2 8 (Except.ok ())).2.1 0
      (Except.ok ())).2.1 true (Except.ok ())).2 = [BusCmd.writeMaxCurrent 0] := by
    simp [Enable, e2]
  refine ⟨e1, e2, e3, ?_⟩
  rw [e3]
  decide

/-- C8 amended: `Enable` always issues exactly one current write — zero when
disabling, and the cached last successfully-applied current (whatever its
value, initially 6000 mA and possibly zero after a successful zero write)
when enabling. -/
theorem enable_writes_cached_current (wb : Warp2) (b : Bool) (w : Except Err Unit) :
    (Enable wb b w).2 = [BusCmd.writeMaxCurrent (if b then wb.current else 0)]
    ∧ (Enable wb b w).2.length = 1 := by
  exact ⟨rfl, rfl⟩

/-- C10: `NewWarp2` initializes the cached last-applied current to 6000 mA,
so an `Enable true` issued before any successful MaxCurrent call writes
6000 mA. -/
theorem initial_current_six_amps :
    NewWarp2.current = 6000
    ∧ ∀ w : Except Err Unit,
        (Enable NewWarp2 true w).2 = [BusCmd.writeMaxCurrent 6000] := by
  exact ⟨rfl, fun w => rfl⟩

end Warp2Spec
